import Mathlib

/-!
Verification development for the agent options module
(`cmd/agent/app/options/options.go`) of apiserver-network-proxy.

The Go code is shallowly embedded: the configuration struct becomes a Lean
structure, `Validate` becomes a pure function over the record together with
explicit oracles for its two external collaborators (the filesystem `stat`
call, of which the code only observes `os.IsNotExist`, and the label-selector
parser `util.ParseLabels` which lives outside this module), and the
early-return sequence of checks becomes an `Option.orElse` chain, one link
per Go `if`-block, in source order.  `url.ParseQuery` (standard library) is
embedded at the byte/char level.  Durations (`time.Duration`) are `Int`
nanoseconds; Go `int` fields are `Int`.
-/

/-- Result of an `os.Stat` call as observed by the code: the code only ever
asks `os.IsNotExist(err)`, so we distinguish success, a not-exist error, and
any other error. -/
inductive StatResult where
  | ok : StatResult
  | notExist : StatResult
  | otherErr : StatResult
deriving DecidableEq, Repr

/-- The configuration record `GrpcProxyAgentOptions` (options.go lines 38-98).
`time.Duration` fields are `Int` nanoseconds; Go `int` fields are `Int`. -/
structure GrpcProxyAgentOptions where
  AgentCert : String
  AgentKey : String
  CaCert : String
  ProxyServerHost : String
  ProxyServerPort : Int
  AlpnProtos : List String
  HealthServerHost : String
  HealthServerPort : Int
  AdminBindAddress : String
  AdminServerPort : Int
  EnableProfiling : Bool
  EnableContentionProfiling : Bool
  AgentID : String
  AgentIdentifiers : String
  SyncInterval : Int
  ProbeInterval : Int
  SyncIntervalCap : Int
  KeepaliveTime : Int
  ServiceAccountTokenPath : String
  WarnOnChannelLimit : Bool
  SyncForever : Bool
  XfrChannelSize : Int
  CountServerLeases : Bool
  LeaseNamespace : String
  LeaseLabel : String
  ServerCountSource : String
  KubeconfigPath : String
  APIContentType : String
deriving DecidableEq, Repr

/-- Modelled from the spec: the identifier-type constants of the
`proto/header` package (not under src/); the closed enumeration is
ipv4, ipv6, cidr, host, default-route (see also the flag help text at
options.go line 137). -/
def IPv4 : String := "ipv4"

/-- Modelled from the spec: see `IPv4`. -/
def IPv6 : String := "ipv6"

/-- Modelled from the spec: see `IPv4`. -/
def CIDR : String := "cidr"

/-- Modelled from the spec: see `IPv4`. -/
def Host : String := "host"

/-- Modelled from the spec: see `IPv4`. -/
def DefaultRoute : String := "default-route"

/-- Modelled from the spec: the protobuf content type constant of
`k8s.io/apimachinery/pkg/runtime` used as the `APIContentType` default. -/
def ContentTypeProtobuf : String := "application/vnd.kubernetes.protobuf"

/-- `strings.Cut(s, sep)` for a one-character separator: the part before the
first occurrence of `sep`, the part after it, and whether it was found. -/
def cutOn (sep : Char) : List Char → List Char × List Char × Bool
  | [] => ([], [], false)
  | c :: cs =>
    if c = sep then ([], cs, true)
    else
      let r := cutOn sep cs
      (c :: r.1, r.2.1, r.2.2)

/-- Hexadecimal digit test, as in `net/url`'s `ishex`. -/
def isHexDigit (c : Char) : Bool :=
  ('0' ≤ c ∧ c ≤ '9') ∨ ('a' ≤ c ∧ c ≤ 'f') ∨ ('A' ≤ c ∧ c ≤ 'F')

/-- Hexadecimal digit value, as in `net/url`'s `unhex`. -/
def hexVal (c : Char) : Nat :=
  if '0' ≤ c ∧ c ≤ '9' then c.toNat - '0'.toNat
  else if 'a' ≤ c ∧ c ≤ 'f' then c.toNat - 'a'.toNat + 10
  else c.toNat - 'A'.toNat + 10

/-- `url.QueryUnescape`: percent-decodes `%XY` sequences and turns `+` into
a space; a `%` not followed by two hex digits is an escape error carrying the
offending snippet (as `url.EscapeError` does). -/
def unescapeQuery : List Char → Except String (List Char)
  | [] => .ok []
  | '%' :: a :: b :: rest =>
    if isHexDigit a ∧ isHexDigit b then
      (unescapeQuery rest).map fun cs => Char.ofNat (16 * hexVal a + hexVal b) :: cs
    else .error (String.mk ['%', a, b])
  | '%' :: rest => .error (String.mk ('%' :: rest))
  | '+' :: rest => (unescapeQuery rest).map fun cs => ' ' :: cs
  | c :: rest => (unescapeQuery rest).map fun cs => c :: cs

/-- `m[key] = append(m[key], value)` on a `url.Values` map, modelled as an
association list in first-occurrence key order (Go map iteration order is
unspecified; first-occurrence order is the deterministic stand-in). -/
def addPair (m : List (String × List String)) (k v : String) :
    List (String × List String) :=
  match m with
  | [] => [(k, [v])]
  | (k0, vs) :: rest =>
    if k0 = k then (k0, vs ++ [v]) :: rest else (k0, vs) :: addPair rest k v

/-- One iteration of `url.parseQuery`'s loop, processing the chunk `kv` cut
off at the next `&`: reject a semicolon, skip an empty chunk, otherwise cut
at `=`, unescape key and value (keeping only the first error, as the Go loop
does), and append the pair. -/
def parseQueryStep (acc : List (String × List String) × Option String)
    (kv : List Char) : List (String × List String) × Option String :=
  if kv.contains ';' then (acc.1, some "invalid semicolon separator in query")
  else if kv.isEmpty then acc
  else
    let c := cutOn '=' kv
    match unescapeQuery c.1 with
    | .error e => (acc.1, acc.2.orElse fun _ => some e)
    | .ok k1 =>
      match unescapeQuery c.2.1 with
      | .error e => (acc.1, acc.2.orElse fun _ => some e)
      | .ok v1 => (addPair acc.1 (String.mk k1) (String.mk v1), acc.2)

/-- Splits on `&`, yielding exactly the successive `strings.Cut(query, "&")`
chunks of `url.parseQuery`'s loop (possibly with extra empty chunks, which
`parseQueryStep` skips just as the Go loop's `key == ""` continue does). -/
def splitOnAmp : List Char → List (List Char)
  | [] => [[]]
  | c :: cs =>
    let r := splitOnAmp cs
    if c = '&' then [] :: r
    else
      match r with
      | [] => [[c]]
      | h :: t => (c :: h) :: t

/-- `url.ParseQuery`: the decoded `url.Values` (as an association list in
first-occurrence key order) and the first parse error, if any.  Go returns
both; the caller in options.go aborts when the error is non-nil. -/
def ParseQuery (s : String) : List (String × List String) × Option String :=
  (splitOnAmp s.data).foldl parseQueryStep ([], none)

/-- An error from `validateAgentIdentifiers`: either a `url.ParseQuery`
error (IdentifierSyntaxError) or the `unknown address type: %s` error
(UnknownIdentifierType) naming the offending key. -/
inductive IdError where
  | syntaxError : String → IdError
  | unknownType : String → IdError
deriving DecidableEq, Repr

/-- The `for idType := range decoded` loop with its `switch` (options.go
lines 254-264): each key must be one of the five identifier-type constants,
and the first key (in the modelled iteration order) outside that enumeration
is returned as an `unknown address type` error. -/
def checkIdTypes : List String → Option IdError
  | [] => none
  | k :: ks =>
    if k = IPv4 ∨ k = IPv6 ∨ k = CIDR ∨ k = Host ∨ k = DefaultRoute then
      checkIdTypes ks
    else some (.unknownType k)

/-- `validateAgentIdentifiers` (options.go lines 249-266). -/
def validateAgentIdentifiers (agentIdentifiers : String) : Option IdError :=
  let r := ParseQuery agentIdentifiers
  match r.2 with
  | some e => some (.syntaxError e)
  | none => checkIdTypes (r.1.map Prod.fst)

/-- The possible `Validate` errors, one constructor per `fmt.Errorf` site in
options.go lines 180-247, carrying the formatted-in data. -/
inductive VError where
  | agentKeyNotFound : String → VError
  | agentCertEmptyForKey : String → VError
  | agentCertNotFound : String → VError
  | agentKeyEmptyForCert : String → VError
  | caCertNotFound : String → VError
  | proxyServerPortInvalid : Int → VError
  | healthServerPortInvalid : Int → VError
  | adminServerPortInvalid : Int → VError
  | xfrChannelSizeInvalid : Int → VError
  | contentionProfilingWithoutProfiling : VError
  | syncIntervalExceedsCap : Int → Int → VError
  | tokenPathNotFound : String → VError
  | agentAddressInvalid : IdError → VError
  | kubeconfigNotFound : String → VError
  | leaseLabelInvalid : String → VError
  | invalidServerCountSource : String → VError
deriving DecidableEq, Repr

/-- The `if o.AgentKey != ""` block of `Validate` (options.go lines
181-188): stat the key path, then require a non-empty cert. -/
def checkAgentKeyBlock (stat : String → StatResult)
    (o : GrpcProxyAgentOptions) : Option VError :=
  if o.AgentKey ≠ "" then
    if stat o.AgentKey = .notExist then some (.agentKeyNotFound o.AgentKey)
    else if o.AgentCert = "" then some (.agentCertEmptyForKey o.AgentKey)
    else none
  else none

/-- The `if o.AgentCert != ""` block of `Validate` (options.go lines
189-196). -/
def checkAgentCertBlock (stat : String → StatResult)
    (o : GrpcProxyAgentOptions) : Option VError :=
  if o.AgentCert ≠ "" then
    if stat o.AgentCert = .notExist then some (.agentCertNotFound o.AgentCert)
    else if o.AgentKey = "" then some (.agentKeyEmptyForCert o.AgentCert)
    else none
  else none

/-- The `if o.CaCert != ""` block of `Validate` (options.go lines 197-201). -/
def checkCaCertBlock (stat : String → StatResult)
    (o : GrpcProxyAgentOptions) : Option VError :=
  if o.CaCert ≠ "" ∧ stat o.CaCert = .notExist then
    some (.caCertNotFound o.CaCert)
  else none

/-- `if o.ProxyServerPort <= 0` (options.go lines 202-204). -/
def checkProxyServerPort (o : GrpcProxyAgentOptions) : Option VError :=
  if o.ProxyServerPort ≤ 0 then some (.proxyServerPortInvalid o.ProxyServerPort)
  else none

/-- `if o.HealthServerPort <= 0` (options.go lines 205-207). -/
def checkHealthServerPort (o : GrpcProxyAgentOptions) : Option VError :=
  if o.HealthServerPort ≤ 0 then some (.healthServerPortInvalid o.HealthServerPort)
  else none

/-- `if o.AdminServerPort <= 0` (options.go lines 208-210). -/
def checkAdminServerPort (o : GrpcProxyAgentOptions) : Option VError :=
  if o.AdminServerPort ≤ 0 then some (.adminServerPortInvalid o.AdminServerPort)
  else none

/-- `if o.XfrChannelSize <= 0` (options.go lines 211-213). -/
def checkXfrChannelSize (o : GrpcProxyAgentOptions) : Option VError :=
  if o.XfrChannelSize ≤ 0 then some (.xfrChannelSizeInvalid o.XfrChannelSize)
  else none

/-- `if o.EnableContentionProfiling && !o.EnableProfiling` (options.go lines
214-216). -/
def checkProfilingDependency (o : GrpcProxyAgentOptions) : Option VError :=
  if o.EnableContentionProfiling ∧ ¬ o.EnableProfiling then
    some .contentionProfilingWithoutProfiling
  else none

/-- `if o.SyncInterval > o.SyncIntervalCap` (options.go lines 217-219). -/
def checkIntervalOrdering (o : GrpcProxyAgentOptions) : Option VError :=
  if o.SyncInterval > o.SyncIntervalCap then
    some (.syncIntervalExceedsCap o.SyncInterval o.SyncIntervalCap)
  else none

/-- The `if o.ServiceAccountTokenPath != ""` stat block (options.go lines
220-224). -/
def checkTokenPath (stat : String → StatResult)
    (o : GrpcProxyAgentOptions) : Option VError :=
  if o.ServiceAccountTokenPath ≠ "" ∧ stat o.ServiceAccountTokenPath = .notExist then
    some (.tokenPathNotFound o.ServiceAccountTokenPath)
  else none

/-- The `validateAgentIdentifiers` call of `Validate` (options.go lines
225-227), wrapping any error as `agent address is invalid`. -/
def checkAgentIdentifiers (o : GrpcProxyAgentOptions) : Option VError :=
  match validateAgentIdentifiers o.AgentIdentifiers with
  | some e => some (.agentAddressInvalid e)
  | none => none

/-- The `if o.KubeconfigPath != ""` stat block (options.go lines 228-232). -/
def checkKubeconfigPath (stat : String → StatResult)
    (o : GrpcProxyAgentOptions) : Option VError :=
  if o.KubeconfigPath ≠ "" ∧ stat o.KubeconfigPath = .notExist then
    some (.kubeconfigNotFound o.KubeconfigPath)
  else none

/-- The `if o.CountServerLeases` block (options.go lines 233-239):
`util.ParseLabels` lives outside this module, so it is an oracle
`parseLabels` returning `some errorMessage` on failure. -/
def checkLeaseLabel (parseLabels : String → Option String)
    (o : GrpcProxyAgentOptions) : Option VError :=
  if o.CountServerLeases then
    match parseLabels o.LeaseLabel with
    | some e => some (.leaseLabelInvalid e)
    | none => none
  else none

/-- The `if o.ServerCountSource != ""` block (options.go lines 240-244). -/
def checkServerCountSource (o : GrpcProxyAgentOptions) : Option VError :=
  if o.ServerCountSource ≠ "" then
    if o.ServerCountSource ≠ "default" ∧ o.ServerCountSource ≠ "max" then
      some (.invalidServerCountSource o.ServerCountSource)
    else none
  else none

/-- `Validate` (options.go lines 180-247): the Go sequence of
`if cond { return err }` blocks becomes an `orElse` chain of the per-block
checks, in source order; `none` is Go's final `return nil`. -/
def Validate (stat : String → StatResult) (parseLabels : String → Option String)
    (o : GrpcProxyAgentOptions) : Option VError :=
  (checkAgentKeyBlock stat o).orElse fun _ =>
  (checkAgentCertBlock stat o).orElse fun _ =>
  (checkCaCertBlock stat o).orElse fun _ =>
  (checkProxyServerPort o).orElse fun _ =>
  (checkHealthServerPort o).orElse fun _ =>
  (checkAdminServerPort o).orElse fun _ =>
  (checkXfrChannelSize o).orElse fun _ =>
  (checkProfilingDependency o).orElse fun _ =>
  (checkIntervalOrdering o).orElse fun _ =>
  (checkTokenPath stat o).orElse fun _ =>
  (checkAgentIdentifiers o).orElse fun _ =>
  (checkKubeconfigPath stat o).orElse fun _ =>
  (checkLeaseLabel parseLabels o).orElse fun _ =>
  checkServerCountSource o

/-- The certificate stage of the spec's check order: agent key block, agent
cert block, CA cert block. -/
def certificateChecks (stat : String → StatResult)
    (o : GrpcProxyAgentOptions) : Option VError :=
  (checkAgentKeyBlock stat o).orElse fun _ =>
  (checkAgentCertBlock stat o).orElse fun _ =>
  checkCaCertBlock stat o

/-- The port stage of the spec's check order: server, health, admin. -/
def portChecks (o : GrpcProxyAgentOptions) : Option VError :=
  (checkProxyServerPort o).orElse fun _ =>
  (checkHealthServerPort o).orElse fun _ =>
  checkAdminServerPort o

/-- Follows the spec's words: the first failing check in the fixed order
certificates → ports (server, health, admin) → channel size → profiling
dependency → interval ordering → token path → identifier decode →
kubeconfig path → lease label → server-count-source. -/
def validateInSpecOrder (stat : String → StatResult)
    (parseLabels : String → Option String)
    (o : GrpcProxyAgentOptions) : Option VError :=
  (certificateChecks stat o).orElse fun _ =>
  (portChecks o).orElse fun _ =>
  (checkXfrChannelSize o).orElse fun _ =>
  (checkProfilingDependency o).orElse fun _ =>
  (checkIntervalOrdering o).orElse fun _ =>
  (checkTokenPath stat o).orElse fun _ =>
  (checkAgentIdentifiers o).orElse fun _ =>
  (checkKubeconfigPath stat o).orElse fun _ =>
  (checkLeaseLabel parseLabels o).orElse fun _ =>
  checkServerCountSource o

/-- `net.JoinHostPort`: brackets the host when it contains a colon (Go
scans the host's bytes for a colon; here the host's character list). -/
def JoinHostPort (host port : String) : String :=
  if host.data.contains ':' then "[" ++ host ++ "]:" ++ port
  else host ++ ":" ++ port

/-- `strconv.Itoa` on the embedded Go `int`. -/
def Itoa (i : Int) : String := toString i

/-- `agent.ClientSetConfig` (outside this module), restricted to the fields
assigned by `ClientSetConfig` in options.go lines 100-115; the gRPC dial
options are kept abstract in the type parameter `D`. -/
structure ClientSetConfig (D : Type) where
  Address : String
  AgentID : String
  AgentIdentifiers : String
  SyncInterval : Int
  ProbeInterval : Int
  SyncIntervalCap : Int
  DialOptions : List D
  ServiceAccountTokenPath : String
  WarnOnChannelLimit : Bool
  SyncForever : Bool
  XfrChannelSize : Int
  ServerCountSource : String

/-- `(o *GrpcProxyAgentOptions) ClientSetConfig` (options.go lines
100-115). -/
def GrpcProxyAgentOptions.ClientSetConfig {D : Type}
    (o : GrpcProxyAgentOptions) (dialOptions : List D) : ClientSetConfig D :=
  { Address := JoinHostPort o.ProxyServerHost (Itoa o.ProxyServerPort)
    AgentID := o.AgentID
    AgentIdentifiers := o.AgentIdentifiers
    SyncInterval := o.SyncInterval
    ProbeInterval := o.ProbeInterval
    SyncIntervalCap := o.SyncIntervalCap
    DialOptions := dialOptions
    ServiceAccountTokenPath := o.ServiceAccountTokenPath
    WarnOnChannelLimit := o.WarnOnChannelLimit
    SyncForever := o.SyncForever
    XfrChannelSize := o.XfrChannelSize
    ServerCountSource := o.ServerCountSource }

/-- One second of `time.Duration`, in nanoseconds. -/
def Second : Int := 1000000000

/-- One hour of `time.Duration`, in nanoseconds. -/
def Hour : Int := 3600 * Second

/-- `defaultAgentID` (options.go lines 301-308): the environment lookup and
the uuid generator are oracles (`getenv`, `freshUUID`). -/
def defaultAgentID (getenv : String → String) (freshUUID : String) : String :=
  if getenv "PROXY_AGENT_ID" ≠ "" then getenv "PROXY_AGENT_ID"
  else freshUUID

/-- `NewGrpcProxyAgentOptions` (options.go lines 268-299): the documented
defaults; `AlpnProtos` is left at its Go zero value (nil). -/
def NewGrpcProxyAgentOptions (getenv : String → String)
    (freshUUID : String) : GrpcProxyAgentOptions :=
  { AgentCert := ""
    AgentKey := ""
    CaCert := ""
    ProxyServerHost := "127.0.0.1"
    ProxyServerPort := 8091
    AlpnProtos := []
    HealthServerHost := ""
    HealthServerPort := 8093
    AdminBindAddress := "127.0.0.1"
    AdminServerPort := 8094
    EnableProfiling := false
    EnableContentionProfiling := false
    AgentID := defaultAgentID getenv freshUUID
    AgentIdentifiers := ""
    SyncInterval := Second
    ProbeInterval := Second
    SyncIntervalCap := 10 * Second
    KeepaliveTime := Hour
    ServiceAccountTokenPath := ""
    WarnOnChannelLimit := false
    SyncForever := false
    XfrChannelSize := 150
    CountServerLeases := false
    LeaseNamespace := "kube-system"
    LeaseLabel := "k8s-app=konnectivity-server"
    ServerCountSource := "default"
    KubeconfigPath := ""
    APIContentType := ContentTypeProtobuf }

/-- Modelled from the spec: the pflag `StringVar` behaviour for the
`agent-id` flag (the flag front end is an external collaborator) — an
explicitly supplied flag value replaces the default, an absent flag leaves
the default (see the precedence comment at options.go lines 302-303). -/
def resolveAgentIDFlag (flagValue : Option String)
    (getenv : String → String) (freshUUID : String) : String :=
  match flagValue with
  | some v => v
  | none => defaultAgentID getenv freshUUID

/-- A filesystem oracle on which every stat succeeds. -/
def statOkAll : String → StatResult := fun _ => .ok

/-- A filesystem oracle on which every stat reports not-exist. -/
def statMissingAll : String → StatResult := fun _ => .notExist

/-- A filesystem oracle on which every stat fails with an error other than
not-exist (for example, permission denied). -/
def statOtherAll : String → StatResult := fun _ => .otherErr

/-- A label-parser oracle that accepts every label string. -/
def plOk : String → Option String := fun _ => none

/-- An environment oracle with no variables set. -/
def envEmpty : String → String := fun _ => ""

/-- An environment oracle with PROXY_AGENT_ID set to agent-7. -/
def envSet : String → String :=
  fun k => if k = "PROXY_AGENT_ID" then "agent-7" else ""

/-- The default-constructed record, with no environment and a fixed fresh
uuid; it passes `Validate`. -/
def validBase : GrpcProxyAgentOptions :=
  NewGrpcProxyAgentOptions envEmpty "uuid-0001"

/-- The decoder is order-preserving for repeated keys: two host entries
decode to the two values in input order under the Host key. -/
theorem parse_repeated_host_keys :
    (ParseQuery "host=a.example.com&host=b.example.com").1
      = [("host", ["a.example.com", "b.example.com"])] := by decide

/-- Reduction of `Option.orElse` on `some`. -/
theorem someOrElse {α : Type} (a : α) (f : Unit → Option α) :
    (some a).orElse f = some a := rfl

/-- Reduction of `Option.orElse` on `none`. -/
theorem noneOrElse {α : Type} (f : Unit → Option α) :
    (none : Option α).orElse f = f () := rfl

/-- An `orElse` chain is `none` only if both links are. -/
theorem orElse_eq_none {α : Type} (a : Option α) (f : Unit → Option α)
    (h : a.orElse f = none) : a = none ∧ f () = none := by
  cases a with
  | none => exact ⟨rfl, by simpa [noneOrElse] using h⟩
  | some v => exact absurd h (by simp [someOrElse])

/-- If `Validate` accepts, the interval-ordering check passed. -/
theorem validate_none_interval_check (stat : String → StatResult)
    (parseLabels : String → Option String) (o : GrpcProxyAgentOptions)
    (h : Validate stat parseLabels o = none) : checkIntervalOrdering o = none := by
  unfold Validate at h
  obtain ⟨-, h⟩ := orElse_eq_none _ _ h
  obtain ⟨-, h⟩ := orElse_eq_none _ _ h
  obtain ⟨-, h⟩ := orElse_eq_none _ _ h
  obtain ⟨-, h⟩ := orElse_eq_none _ _ h
  obtain ⟨-, h⟩ := orElse_eq_none _ _ h
  obtain ⟨-, h⟩ := orElse_eq_none _ _ h
  obtain ⟨-, h⟩ := orElse_eq_none _ _ h
  obtain ⟨-, h⟩ := orElse_eq_none _ _ h
  exact (orElse_eq_none _ _ h).1

/-- C1: for every configuration record (in particular any record violating
several invariants at once), `Validate` returns the error of the first
failing check in the fixed order certificates → ports (server, health,
admin) → channel size → profiling dependency → interval ordering → token
path → identifier decode → kubeconfig path → lease label →
server-count-source; determinism (the same input always yields the same
error) is immediate since `Validate` is a pure function of its arguments. -/
theorem claim_C1_first_failing_check_in_spec_order
    (stat : String → StatResult) (parseLabels : String → Option String)
    (o : GrpcProxyAgentOptions) :
    Validate stat parseLabels o = validateInSpecOrder stat parseLabels o := by
  unfold Validate validateInSpecOrder certificateChecks portChecks
  cases checkAgentKeyBlock stat o <;> simp only [someOrElse, noneOrElse]
  cases checkAgentCertBlock stat o <;> simp only [someOrElse, noneOrElse]
  cases checkCaCertBlock stat o <;> simp only [someOrElse, noneOrElse]
  cases checkProxyServerPort o <;> simp only [someOrElse, noneOrElse]
  cases checkHealthServerPort o <;> simp only [someOrElse, noneOrElse]

/-- A record whose agent key is set but whose agent cert is empty. -/
def cfgKeyOnly : GrpcProxyAgentOptions := { validBase with AgentKey := "agent.key" }

/-- A record whose agent cert is set but whose agent key is empty. -/
def cfgCertOnly : GrpcProxyAgentOptions := { validBase with AgentCert := "agent.crt" }

/-- A record with both agent key and agent cert set. -/
def cfgBothCreds : GrpcProxyAgentOptions :=
  { validBase with AgentKey := "agent.key", AgentCert := "agent.crt" }

/-- A filesystem oracle on which only the cert path is missing. -/
def statCertMissing : String → StatResult :=
  fun p => if p = "agent.crt" then .notExist else .ok

/-- C2 counterexample: on a record with a non-empty agent-key and an empty
agent-cert whose key path does not exist on the filesystem, `Validate` fails
with the path-not-found error for the key (`error checking agent key`), not
with the MissingPairedCredential error (`cannot have agent cert empty`), so
the claim does not hold for every such record. -/
theorem claim_C2_counterexample :
    cfgKeyOnly.AgentKey ≠ "" ∧ cfgKeyOnly.AgentCert = "" ∧
    Validate statMissingAll plOk cfgKeyOnly
      ≠ some (.agentCertEmptyForKey cfgKeyOnly.AgentKey) ∧
    Validate statMissingAll plOk cfgKeyOnly
      = some (.agentKeyNotFound "agent.key") := by decide

/-- C2 (amended): when the set credential path is not reported missing by
the filesystem, a non-empty agent-key with an empty agent-cert (and vice
versa) fails with the MissingPairedCredential error; and when both are set,
a missing key path or (with the key path present) a missing cert path fails
with the corresponding path-not-found error. -/
theorem claim_C2_paired_credentials (stat : String → StatResult)
    (parseLabels : String → Option String) (o : GrpcProxyAgentOptions) :
    (o.AgentKey ≠ "" → o.AgentCert = "" → stat o.AgentKey ≠ .notExist →
      Validate stat parseLabels o = some (.agentCertEmptyForKey o.AgentKey)) ∧
    (o.AgentCert ≠ "" → o.AgentKey = "" → stat o.AgentCert ≠ .notExist →
      Validate stat parseLabels o = some (.agentKeyEmptyForCert o.AgentCert)) ∧
    (o.AgentKey ≠ "" → stat o.AgentKey = .notExist →
      Validate stat parseLabels o = some (.agentKeyNotFound o.AgentKey)) ∧
    (o.AgentKey ≠ "" → o.AgentCert ≠ "" → stat o.AgentKey ≠ .notExist →
      stat o.AgentCert = .notExist →
      Validate stat parseLabels o = some (.agentCertNotFound o.AgentCert)) := by
  refine ⟨?_, ?_, ?_, ?_⟩
  · intro hk hc hs
    unfold Validate checkAgentKeyBlock
    simp [hk, hc, hs, someOrElse]
  · intro hc hk hs
    unfold Validate checkAgentKeyBlock checkAgentCertBlock
    simp [hc, hk, hs, someOrElse, noneOrElse]
  · intro hk hs
    unfold Validate checkAgentKeyBlock
    simp [hk, hs, someOrElse]
  · intro hk hc hs1 hs2
    unfold Validate checkAgentKeyBlock checkAgentCertBlock
    simp [hk, hc, hs1, hs2, someOrElse, noneOrElse]

/-- C2 witness: the four amended branches at concrete records. -/
theorem claim_C2_witness :
    Validate statOkAll plOk cfgKeyOnly = some (.agentCertEmptyForKey "agent.key") ∧
    Validate statOkAll plOk cfgCertOnly = some (.agentKeyEmptyForCert "agent.crt") ∧
    Validate statMissingAll plOk cfgKeyOnly = some (.agentKeyNotFound "agent.key") ∧
    Validate statCertMissing plOk cfgBothCreds = some (.agentCertNotFound "agent.crt") :=
  ⟨(claim_C2_paired_credentials statOkAll plOk cfgKeyOnly).1
      (by decide) (by decide) (by decide),
    (claim_C2_paired_credentials statOkAll plOk cfgCertOnly).2.1
      (by decide) (by decide) (by decide),
    (claim_C2_paired_credentials statMissingAll plOk cfgKeyOnly).2.2.1
      (by decide) (by decide),
    (claim_C2_paired_credentials statCertMissing plOk cfgBothCreds).2.2.2
      (by decide) (by decide) (by decide) (by decide)⟩

/-- Boolean membership in the closed identifier-type enumeration. -/
def isIdentifierKey (k : String) : Bool :=
  k == IPv4 || k == IPv6 || k == CIDR || k == Host || k == DefaultRoute

/-- The range-and-switch loop returns exactly the first key (in iteration
order) outside the closed enumeration. -/
theorem checkIdTypes_eq_find (l : List String) :
    checkIdTypes l
      = (l.find? fun k => ! isIdentifierKey k).map IdError.unknownType := by
  induction l with
  | nil => rfl
  | cons k ks ih =>
    by_cases h : k = IPv4 ∨ k = IPv6 ∨ k = CIDR ∨ k = Host ∨ k = DefaultRoute
    · have hb : (! isIdentifierKey k) = false := by
        simp only [isIdentifierKey, Bool.not_eq_false', Bool.or_eq_true, beq_iff_eq]
        tauto
      simp only [checkIdTypes, if_pos h, ih, List.find?, hb]
    · have hb : (! isIdentifierKey k) = true := by
        simp only [isIdentifierKey, Bool.not_eq_true', Bool.or_eq_false_iff,
          beq_eq_false_iff_ne]
        tauto
      simp only [checkIdTypes, if_neg h, List.find?, hb, Option.map_some']

/-- C3: for every identifier string that tokenizes without error and whose
decoded key list contains a key outside the closed enumeration (ipv4, ipv6,
cidr, host, default-route), the decoder fails with an UnknownIdentifierType
error naming the first such key in iteration order (Go iterates the decoded
map in unspecified order; the embedding uses first-occurrence order); in
particular decoding foo=bar fails naming foo. -/
theorem claim_C3_unknown_identifier_type :
    (∀ s k, (ParseQuery s).2 = none →
      ((ParseQuery s).1.map Prod.fst).find? (fun x => ! isIdentifierKey x) = some k →
      validateAgentIdentifiers s = some (.unknownType k)) ∧
    validateAgentIdentifiers "foo=bar" = some (.unknownType "foo") := by
  constructor
  · intro s k hwf hfind
    simp only [validateAgentIdentifiers]
    rw [hwf]
    rw [checkIdTypes_eq_find, hfind]
    rfl
  · decide

/-- C3 witness: a well-formed string whose first out-of-enumeration key in
iteration order is bogus. -/
theorem claim_C3_witness :
    validateAgentIdentifiers "host=a&bogus=1&foo=2" = some (.unknownType "bogus") :=
  claim_C3_unknown_identifier_type.1 "host=a&bogus=1&foo=2" "bogus"
    (by decide) (by decide)

/-- C4: decoding the empty identifier string succeeds with an empty
Identifier Set and no error, and the identifier check of `Validate` passes
on any record whose encoded identifier string is empty. -/
theorem claim_C4_empty_identifier_string (o : GrpcProxyAgentOptions) :
    ParseQuery "" = ([], none) ∧
    validateAgentIdentifiers "" = none ∧
    checkAgentIdentifiers { o with AgentIdentifiers := "" } = none :=
  ⟨rfl, rfl, rfl⟩

/-- A record violating both the port invariant and the interval ordering. -/
def cfgPortAndInterval : GrpcProxyAgentOptions :=
  { validBase with ProxyServerPort := 0, SyncInterval := 2, SyncIntervalCap := 1 }

/-- A record violating only the interval ordering. -/
def cfgIntervalOnly : GrpcProxyAgentOptions :=
  { validBase with SyncInterval := 2, SyncIntervalCap := 1 }

/-- C5 counterexample: on a record with sync-interval > sync-interval-cap
that also has a non-positive proxy server port, `Validate` fails with the
port error, not with InvalidIntervalOrdering, so `if sync-interval >
sync-interval-cap then Validate fails with the InvalidIntervalOrdering
error` does not hold for every configuration record. -/
theorem claim_C5_counterexample :
    cfgPortAndInterval.SyncInterval > cfgPortAndInterval.SyncIntervalCap ∧
    Validate statOkAll plOk cfgPortAndInterval
      ≠ some (.syncIntervalExceedsCap cfgPortAndInterval.SyncInterval
          cfgPortAndInterval.SyncIntervalCap) ∧
    Validate statOkAll plOk cfgPortAndInterval
      = some (.proxyServerPortInvalid 0) := by decide

/-- C5 (amended): the interval-ordering check of `Validate` fails with
InvalidIntervalOrdering exactly when sync-interval > sync-interval-cap (so
equality passes), and `Validate` itself surfaces that error whenever the
checks preceding it in the fixed order all pass. -/
theorem claim_C5_interval_ordering (stat : String → StatResult)
    (parseLabels : String → Option String) (o : GrpcProxyAgentOptions) :
    (checkIntervalOrdering o
        = some (.syncIntervalExceedsCap o.SyncInterval o.SyncIntervalCap)
      ↔ o.SyncInterval > o.SyncIntervalCap) ∧
    (o.SyncInterval = o.SyncIntervalCap → checkIntervalOrdering o = none) ∧
    (o.SyncInterval > o.SyncIntervalCap →
      checkAgentKeyBlock stat o = none → checkAgentCertBlock stat o = none →
      checkCaCertBlock stat o = none → checkProxyServerPort o = none →
      checkHealthServerPort o = none → checkAdminServerPort o = none →
      checkXfrChannelSize o = none → checkProfilingDependency o = none →
      Validate stat parseLabels o
        = some (.syncIntervalExceedsCap o.SyncInterval o.SyncIntervalCap)) := by
  refine ⟨?_, ?_, ?_⟩
  · unfold checkIntervalOrdering
    by_cases hgt : o.SyncInterval > o.SyncIntervalCap <;> simp [hgt]
  · intro heq
    unfold checkIntervalOrdering
    simp [heq]
  · intro hgt h1 h2 h3 h4 h5 h6 h7 h8
    unfold Validate
    rw [h1]
    simp only [noneOrElse]
    rw [h2]
    simp only [noneOrElse]
    rw [h3]
    simp only [noneOrElse]
    rw [h4]
    simp only [noneOrElse]
    rw [h5]
    simp only [noneOrElse]
    rw [h6]
    simp only [noneOrElse]
    rw [h7]
    simp only [noneOrElse]
    rw [h8]
    simp only [noneOrElse]
    unfold checkIntervalOrdering
    simp [hgt, someOrElse]

/-- C5 witness: the amended claim at a record that only violates the
interval ordering. -/
theorem claim_C5_witness :
    Validate statOkAll plOk cfgIntervalOnly = some (.syncIntervalExceedsCap 2 1) :=
  (claim_C5_interval_ordering statOkAll plOk cfgIntervalOnly).2.2
    (by decide) (by decide) (by decide) (by decide) (by decide)
    (by decide) (by decide) (by decide) (by decide)

/-- A record whose server-count-source is outside the closed enumeration. -/
def cfgBadCountSource : GrpcProxyAgentOptions :=
  { validBase with ServerCountSource := "bogus" }

/-- C6: the server-count-source check of `Validate` passes exactly when the
value is one of the empty string, default, or max, and any other value fails
with the InvalidServerCountSource error naming it. -/
theorem claim_C6_server_count_source (o : GrpcProxyAgentOptions) :
    (checkServerCountSource o = none ↔
      (o.ServerCountSource = "" ∨ o.ServerCountSource = "default" ∨
        o.ServerCountSource = "max")) ∧
    (¬ (o.ServerCountSource = "" ∨ o.ServerCountSource = "default" ∨
        o.ServerCountSource = "max") →
      checkServerCountSource o
        = some (.invalidServerCountSource o.ServerCountSource)) := by
  constructor
  · unfold checkServerCountSource
    by_cases h1 : o.ServerCountSource = "" <;>
      by_cases h2 : o.ServerCountSource = "default" <;>
      by_cases h3 : o.ServerCountSource = "max" <;>
      simp [h1, h2, h3]
  · intro h
    push_neg at h
    obtain ⟨h1, h2, h3⟩ := h
    unfold checkServerCountSource
    simp [h1, h2, h3]

/-- C6 witness: the failing branch at a concrete record. -/
theorem claim_C6_witness :
    checkServerCountSource cfgBadCountSource
      = some (.invalidServerCountSource "bogus") :=
  (claim_C6_server_count_source cfgBadCountSource).2 (by decide)

/-- A record with all four durations negative; it is accepted by `Validate`
because the negative sync interval is still below the (negative) cap and no
check looks at the signs. -/
def cfgNegativeDurations : GrpcProxyAgentOptions :=
  { validBase with
      SyncInterval := -5
      ProbeInterval := -3
      SyncIntervalCap := -1
      KeepaliveTime := -7 }

/-- C7 counterexample: `Validate` accepts a record whose sync interval,
probe interval, sync-interval cap, and keepalive duration are all negative,
so acceptance does not imply non-negative durations. -/
theorem claim_C7_counterexample :
    Validate statOkAll plOk cfgNegativeDurations = none ∧
    cfgNegativeDurations.SyncInterval < 0 ∧
    cfgNegativeDurations.ProbeInterval < 0 ∧
    cfgNegativeDurations.SyncIntervalCap < 0 ∧
    cfgNegativeDurations.KeepaliveTime < 0 := by decide

/-- C7 (amended): every record accepted by `Validate` satisfies
sync interval ≤ sync-interval cap; non-negativity of the four durations is
not checked by `Validate`. -/
theorem claim_C7_accepted_interval_invariant (stat : String → StatResult)
    (parseLabels : String → Option String) (o : GrpcProxyAgentOptions)
    (h : Validate stat parseLabels o = none) :
    o.SyncInterval ≤ o.SyncIntervalCap := by
  have hI := validate_none_interval_check stat parseLabels o h
  unfold checkIntervalOrdering at hI
  by_cases hgt : o.SyncInterval > o.SyncIntervalCap
  · simp [hgt] at hI
  · omega

/-- C7 witness: the amended claim at the accepted default record. -/
theorem claim_C7_witness :
    validBase.SyncInterval ≤ validBase.SyncIntervalCap :=
  claim_C7_accepted_interval_invariant statOkAll plOk validBase (by decide)

/-- C8: the default agent ID equals the PROXY_AGENT_ID environment value
when that value is non-empty, and the freshly generated unique identifier
(the injected `freshUUID` oracle, `uuid.New().String()` in the code) when
the variable is unset or empty; `NewGrpcProxyAgentOptions` installs exactly
this default, and an explicitly supplied flag value always replaces it. -/
theorem claim_C8_agent_id_defaulting (getenv : String → String)
    (freshUUID flagValue : String) :
    defaultAgentID getenv freshUUID
      = (if getenv "PROXY_AGENT_ID" = "" then freshUUID
         else getenv "PROXY_AGENT_ID") ∧
    (NewGrpcProxyAgentOptions getenv freshUUID).AgentID
      = defaultAgentID getenv freshUUID ∧
    resolveAgentIDFlag (some flagValue) getenv freshUUID = flagValue ∧
    resolveAgentIDFlag none getenv freshUUID
      = defaultAgentID getenv freshUUID := by
  refine ⟨?_, rfl, rfl, rfl⟩
  unfold defaultAgentID
  by_cases h : getenv "PROXY_AGENT_ID" = "" <;> simp [h]

/-- C9: the derived Client Dial Configuration joins the server host and port
into the endpoint address with the standard host:port rule (`JoinHostPort`,
which brackets hosts containing a colon, as the two concrete conjuncts
show), copies every other field verbatim from the source record, and is a
total function of the record: it performs no validation and never fails. -/
theorem claim_C9_client_set_config_projection {D : Type}
    (o : GrpcProxyAgentOptions) (dialOptions : List D) :
    (o.ClientSetConfig dialOptions).Address
      = JoinHostPort o.ProxyServerHost (Itoa o.ProxyServerPort) ∧
    (o.ClientSetConfig dialOptions).AgentID = o.AgentID ∧
    (o.ClientSetConfig dialOptions).AgentIdentifiers = o.AgentIdentifiers ∧
    (o.ClientSetConfig dialOptions).SyncInterval = o.SyncInterval ∧
    (o.ClientSetConfig dialOptions).ProbeInterval = o.ProbeInterval ∧
    (o.ClientSetConfig dialOptions).SyncIntervalCap = o.SyncIntervalCap ∧
    (o.ClientSetConfig dialOptions).DialOptions = dialOptions ∧
    (o.ClientSetConfig dialOptions).ServiceAccountTokenPath
      = o.ServiceAccountTokenPath ∧
    (o.ClientSetConfig dialOptions).WarnOnChannelLimit = o.WarnOnChannelLimit ∧
    (o.ClientSetConfig dialOptions).SyncForever = o.SyncForever ∧
    (o.ClientSetConfig dialOptions).XfrChannelSize = o.XfrChannelSize ∧
    (o.ClientSetConfig dialOptions).ServerCountSource = o.ServerCountSource ∧
    JoinHostPort "::1" "8091" = "[::1]:8091" ∧
    JoinHostPort "127.0.0.1" "8091" = "127.0.0.1:8091" :=
  ⟨rfl, rfl, rfl, rfl, rfl, rfl, rfl, rfl, rfl, rfl, rfl, rfl, by decide, by decide⟩

/-- The stat oracle enters `checkAgentKeyBlock` only through not-exist
tests. -/
theorem checkAgentKeyBlock_stat_congr (s1 s2 : String → StatResult)
    (o : GrpcProxyAgentOptions)
    (h : ∀ p, s1 p = .notExist ↔ s2 p = .notExist) :
    checkAgentKeyBlock s1 o = checkAgentKeyBlock s2 o := by
  unfold checkAgentKeyBlock
  by_cases hk : s1 o.AgentKey = .notExist
  · have hk2 : s2 o.AgentKey = .notExist := (h o.AgentKey).1 hk
    simp [hk, hk2]
  · have hk2 : ¬ s2 o.AgentKey = .notExist := fun c => hk ((h o.AgentKey).2 c)
    simp [hk, hk2]

/-- The stat oracle enters `checkAgentCertBlock` only through not-exist
tests. -/
theorem checkAgentCertBlock_stat_congr (s1 s2 : String → StatResult)
    (o : GrpcProxyAgentOptions)
    (h : ∀ p, s1 p = .notExist ↔ s2 p = .notExist) :
    checkAgentCertBlock s1 o = checkAgentCertBlock s2 o := by
  unfold checkAgentCertBlock
  by_cases hc : s1 o.AgentCert = .notExist
  · have hc2 : s2 o.AgentCert = .notExist := (h o.AgentCert).1 hc
    simp [hc, hc2]
  · have hc2 : ¬ s2 o.AgentCert = .notExist := fun c => hc ((h o.AgentCert).2 c)
    simp [hc, hc2]

/-- The stat oracle enters `checkCaCertBlock` only through not-exist
tests. -/
theorem checkCaCertBlock_stat_congr (s1 s2 : String → StatResult)
    (o : GrpcProxyAgentOptions)
    (h : ∀ p, s1 p = .notExist ↔ s2 p = .notExist) :
    checkCaCertBlock s1 o = checkCaCertBlock s2 o := by
  unfold checkCaCertBlock
  by_cases hc : s1 o.CaCert = .notExist
  · have hc2 : s2 o.CaCert = .notExist := (h o.CaCert).1 hc
    simp [hc, hc2]
  · have hc2 : ¬ s2 o.CaCert = .notExist := fun c => hc ((h o.CaCert).2 c)
    simp [hc, hc2]

/-- The stat oracle enters `checkTokenPath` only through not-exist tests. -/
theorem checkTokenPath_stat_congr (s1 s2 : String → StatResult)
    (o : GrpcProxyAgentOptions)
    (h : ∀ p, s1 p = .notExist ↔ s2 p = .notExist) :
    checkTokenPath s1 o = checkTokenPath s2 o := by
  unfold checkTokenPath
  by_cases ht : s1 o.ServiceAccountTokenPath = .notExist
  · have ht2 : s2 o.ServiceAccountTokenPath = .notExist :=
      (h o.ServiceAccountTokenPath).1 ht
    simp [ht, ht2]
  · have ht2 : ¬ s2 o.ServiceAccountTokenPath = .notExist :=
      fun c => ht ((h o.ServiceAccountTokenPath).2 c)
    simp [ht, ht2]

/-- The stat oracle enters `checkKubeconfigPath` only through not-exist
tests. -/
theorem checkKubeconfigPath_stat_congr (s1 s2 : String → StatResult)
    (o : GrpcProxyAgentOptions)
    (h : ∀ p, s1 p = .notExist ↔ s2 p = .notExist) :
    checkKubeconfigPath s1 o = checkKubeconfigPath s2 o := by
  unfold checkKubeconfigPath
  by_cases hk : s1 o.KubeconfigPath = .notExist
  · have hk2 : s2 o.KubeconfigPath = .notExist := (h o.KubeconfigPath).1 hk
    simp [hk, hk2]
  · have hk2 : ¬ s2 o.KubeconfigPath = .notExist :=
      fun c => hk ((h o.KubeconfigPath).2 c)
    simp [hk, hk2]

/-- C10: `Validate` observes the filesystem only through whether each stat
reports not-exist: any two stat oracles that agree on not-exist-ness (in
particular, one failing with a non-not-exist error such as permission
denied versus one succeeding) produce identical validation outcomes, so a
path-existence check fails only on a not-exist report and any other stat
error lets validation proceed as if the path were valid. -/
theorem claim_C10_stat_only_not_exist_matters (s1 s2 : String → StatResult)
    (parseLabels : String → Option String) (o : GrpcProxyAgentOptions)
    (h : ∀ p, s1 p = .notExist ↔ s2 p = .notExist) :
    Validate s1 parseLabels o = Validate s2 parseLabels o := by
  unfold Validate
  simp only [checkAgentKeyBlock_stat_congr s1 s2 o h,
    checkAgentCertBlock_stat_congr s1 s2 o h,
    checkCaCertBlock_stat_congr s1 s2 o h,
    checkTokenPath_stat_congr s1 s2 o h,
    checkKubeconfigPath_stat_congr s1 s2 o h]

/-- A record with every path-valued field set. -/
def cfgAllPaths : GrpcProxyAgentOptions :=
  { validBase with
      AgentKey := "k.pem"
      AgentCert := "c.pem"
      CaCert := "ca.pem"
      ServiceAccountTokenPath := "token"
      KubeconfigPath := "kubeconfig" }

/-- C10 witness: with every path set, an all-other-error filesystem behaves
exactly like an all-ok filesystem, and validation accepts. -/
theorem claim_C10_witness :
    Validate statOtherAll plOk cfgAllPaths = Validate statOkAll plOk cfgAllPaths ∧
    Validate statOkAll plOk cfgAllPaths = none :=
  ⟨claim_C10_stat_only_not_exist_matters statOtherAll statOkAll plOk cfgAllPaths
      (fun p => by simp [statOtherAll, statOkAll]),
    by decide⟩
